import Mathlib

/-!
Shallow embedding of the LLM request-orchestration substrate: the model
router and telemetry store (`lib/model-router.ts`), the text chunker and
resumable extraction pipeline (the streaming-extraction script), the
comment-summarization map/reduce (`mapChunkToSummary`), the sliding-window
rate limiter (`lib/rate-limit.ts`) and the moderation endpoint
(`app/api/moderation/route.ts`).

JavaScript numbers are modelled as rationals (`ℚ`); timestamps are `ℚ`
milliseconds passed explicitly where the source calls `Date.now()`.
File-persisted state (telemetry map, routing history, checkpoint, cache)
is passed and returned explicitly. LLM calls are modelled by oracles:
functions from the attempt number to `Except String result`, standing for
the promise either resolving or rejecting.
-/

namespace Router

/-- Capability tiers from the `CapabilityTier` enum. -/
inductive CapabilityTier
  | basic
  | standard
  | advanced
  | reasoning
deriving DecidableEq, Repr

/-- Position of a tier in the `tierOrder` array of `calculateModelScore`. -/
def tierIndex : CapabilityTier → ℕ
  | .basic => 0
  | .standard => 1
  | .advanced => 2
  | .reasoning => 3

/-- Static per-model record of the `MODEL_CAPABILITIES` table. -/
structure ModelCapabilities where
  capabilityTier : CapabilityTier
  baseCostPer1kTokens : ℚ
  maxLatencyMs : ℚ
  supportsStructuredOutput : Bool
  supportsStreaming : Bool
deriving DecidableEq, Repr

/-- The static `MODEL_CAPABILITIES` table of `lib/model-router.ts`. -/
def MODEL_CAPABILITIES : List (String × ModelCapabilities) :=
  [("openai/gpt-4.1", ⟨.standard, 0.03, 3000, true, true⟩),
   ("openai/gpt-5-mini", ⟨.reasoning, 0.05, 10000, true, true⟩),
   ("openai/gpt-4o-mini", ⟨.basic, 0.01, 2000, true, true⟩)]

/-- Mutable per-model telemetry (`ModelTelemetry` interface). -/
structure ModelTelemetry where
  model : String
  latencyMs : ℚ
  costPer1kTokens : ℚ
  successRate : ℚ
  capabilityTier : CapabilityTier
  lastUpdated : ℚ
  callCount : ℕ
  avgLatencyMs : ℚ
deriving DecidableEq, Repr

/-- Task kinds of `RouterConfigSchema`. -/
inductive Task
  | classification
  | summarization
  | reasoning
  | extraction
  | chat
  | other
deriving DecidableEq, Repr

/-- Priorities of `RouterConfigSchema`. -/
inductive Priority
  | cost
  | quality
  | speed
  | balanced
deriving DecidableEq, Repr

/-- Complexity levels of `RouterConfigSchema`. -/
inductive Complexity
  | low
  | medium
  | high
deriving DecidableEq, Repr

/-- A parsed `RouterConfig`. -/
structure RouterConfig where
  task : Task
  maxLatencyMs : Option ℚ := none
  priority : Priority := .balanced
  complexity : Complexity := .medium
  requiredCapabilities : Option (List String) := none
deriving DecidableEq, Repr

/-- The `taskTierMap` lookup of `calculateModelScore`, with the
`|| CapabilityTier.STANDARD` default for the `other` task. -/
def requiredTierFor : Task → CapabilityTier
  | .classification => .basic
  | .summarization => .standard
  | .extraction => .standard
  | .reasoning => .reasoning
  | .chat => .standard
  | .other => .standard

/-- The spec side notion of a model supporting a named capability, read
off the booleans of the static capability table: `structured_output` maps
to `supportsStructuredOutput`, `streaming` to `supportsStreaming`, and any
other capability string is unsupported. The source never consults this. -/
def supportsCapability (c : ModelCapabilities) (cap : String) : Bool :=
  if cap = "structured_output" then c.supportsStructuredOutput
  else if cap = "streaming" then c.supportsStreaming
  else false

/-- Transcription of `calculateModelScore`. The capability table is a
parameter (the source closes over the module constant `MODEL_CAPABILITIES`,
instantiated below); `now` is the ambient `Date.now()`. Returns the floored
score and the joined reason string. The truthiness test
`config.maxLatencyMs && ...` is rendered as the value being present and
nonzero. -/
def calculateModelScore (caps : List (String × ModelCapabilities)) (model : String)
    (telemetry : ModelTelemetry) (config : RouterConfig) (now : ℚ) : ℚ × String :=
  match caps.lookup model with
  | none => (0, "Unknown model")
  | some _ =>
    let score0 : ℚ := 100
    let modelTierIndex := tierIndex telemetry.capabilityTier
    let requiredTierIndex := tierIndex (requiredTierFor config.task)
    let s1 : ℚ × List String :=
      if modelTierIndex < requiredTierIndex then (score0 - 30, ["insufficient capabilities"])
      else if modelTierIndex > requiredTierIndex + 1 then (score0 - 10, ["overkill for task"])
      else (score0, [])
    let s2 : ℚ × List String :=
      match config.maxLatencyMs with
      | some m =>
        if m ≠ 0 ∧ telemetry.avgLatencyMs > m then (s1.1 - 50, s1.2 ++ ["exceeds max latency"])
        else s1
      | none => s1
    let s3 : ℚ × List String :=
      match config.priority with
      | .cost => (s2.1 * 0.3 + ((1 / telemetry.costPer1kTokens) * 100) * 0.7,
          s2.2 ++ ["cost-optimized"])
      | .speed => (s2.1 * 0.3 + ((1 / telemetry.avgLatencyMs) * 10000) * 0.7,
          s2.2 ++ ["speed-optimized"])
      | .quality => (s2.1 * 0.3 + (((modelTierIndex : ℚ) + 1) * 25) * 0.7,
          s2.2 ++ ["quality-optimized"])
      | .balanced => (s2.1 * 0.2 + ((1 / telemetry.costPer1kTokens) * 50) * 0.3
          + ((1 / telemetry.avgLatencyMs) * 5000) * 0.3
          + (((modelTierIndex : ℚ) + 1) * 15) * 0.2,
          s2.2 ++ ["balanced"])
    let s4 : ℚ × List String :=
      if telemetry.successRate < 0.95 then
        (s3.1 - (1 - telemetry.successRate) * 50, s3.2 ++ ["low success rate"])
      else s3
    let daysSinceUpdate := (now - telemetry.lastUpdated) / (1000 * 60 * 60 * 24)
    let s5 : ℚ × List String :=
      if daysSinceUpdate < 1 ∧ telemetry.callCount > 10 then (s4.1 + 5, s4.2 ++ ["recently used"])
      else s4
    (max 0 s5.1, String.intercalate ", " s5.2)

/-- One scored candidate, the element shape of the `scored` array in
`selectModel` and of `alternatives` in a `RoutingDecision`. -/
structure ScoredEntry where
  model : String
  score : ℚ
  reason : String
deriving DecidableEq, Repr

/-- Insertion step of a stable descending sort by score, matching
`scored.sort((a, b) => b.score - a.score)` (JavaScript `sort` is stable):
an element passes existing entries only if they score strictly higher, so
among equal scores the original order is kept. -/
def insertByScoreDesc (x : ScoredEntry) : List ScoredEntry → List ScoredEntry
  | [] => [x]
  | y :: ys => if y.score > x.score then y :: insertByScoreDesc x ys else x :: y :: ys

/-- Stable descending sort by score. -/
def sortByScoreDesc (l : List ScoredEntry) : List ScoredEntry :=
  l.foldr insertByScoreDesc []

/-- A routing decision record (`RoutingDecision` interface). Number
formatting of the score inside the reason string (`toFixed(2)`) is
abstracted by `toString`. -/
structure RoutingDecision where
  timestamp : ℚ
  config : RouterConfig
  selectedModel : String
  reason : String
  alternatives : List ScoredEntry
deriving DecidableEq, Repr

/-- JavaScript `array.slice(-n)`: the last `n` elements. -/
def takeLast {α : Type} (n : ℕ) (l : List α) : List α :=
  l.drop (l.length - n)

/-- The `loadRoutingHistory` read path: the persisted array truncated to
its last 100 entries. -/
def loadRoutingHistory (file : List RoutingDecision) : List RoutingDecision :=
  takeLast 100 file

/-- The `saveRoutingDecision` write path: reload, push, keep the last 100,
overwrite the file. -/
def saveRoutingDecision (file : List RoutingDecision) (d : RoutingDecision) :
    List RoutingDecision :=
  takeLast 100 (loadRoutingHistory file ++ [d])

/-- Transcription of `selectModel`. The loaded telemetry map and the
persisted routing-history file are explicit; the result pairs the selected
model name with the new history file contents. An empty telemetry table
falls back to `"openai/gpt-4.1"` without touching the history. The inner
`[]` case of the sorted list is unreachable (the table is nonempty there)
and mirrors the fallback. -/
def selectModel (caps : List (String × ModelCapabilities))
    (telemetry : List (String × ModelTelemetry)) (config : RouterConfig) (now : ℚ)
    (history : List RoutingDecision) : String × List RoutingDecision :=
  match telemetry with
  | [] => ("openai/gpt-4.1", history)
  | _ :: _ =>
    let scored := telemetry.map (fun p =>
      ScoredEntry.mk p.1 (calculateModelScore caps p.1 p.2 config now).1
        (calculateModelScore caps p.1 p.2 config now).2)
    match sortByScoreDesc scored with
    | [] => ("openai/gpt-4.1", history)
    | selected :: rest =>
      let alternatives := rest.take 3
      let decision : RoutingDecision :=
        { timestamp := now, config := config, selectedModel := selected.model,
          reason := selected.reason ++ " (score: " ++ toString selected.score ++ ")",
          alternatives := alternatives }
      (selected.model, saveRoutingDecision history decision)

/-- The default base record used by `updateTelemetry` when the model is
absent from the capability table. -/
def defaultBase : ModelCapabilities :=
  ⟨.standard, 0.03, 5000, true, true⟩

/-- Replace the binding of `model` in the telemetry map, as the in-place
field assignments on `telemetry[model]` do. -/
def setEntry : List (String × ModelTelemetry) → String → ModelTelemetry →
    List (String × ModelTelemetry)
  | [], _, _ => []
  | (k, v) :: t, model, e =>
    match k == model with
    | true => (k, e) :: setEntry t model e
    | false => (k, v) :: setEntry t model e

/-- Transcription of `updateTelemetry`: loaded map in, saved map out.
A missing entry is initialized with `callCount = 1`; an existing entry
gets its running means updated after incrementing `callCount`. -/
def updateTelemetry (caps : List (String × ModelCapabilities))
    (telemetry : List (String × ModelTelemetry)) (model : String) (latencyMs : ℚ)
    (success : Bool) (now : ℚ) : List (String × ModelTelemetry) :=
  match telemetry.lookup model with
  | none =>
    let base := (caps.lookup model).getD defaultBase
    telemetry ++ [(model,
      { model := model, latencyMs := latencyMs,
        costPer1kTokens := base.baseCostPer1kTokens,
        successRate := if success then 1 else 0,
        capabilityTier := base.capabilityTier, lastUpdated := now,
        callCount := 1, avgLatencyMs := latencyMs })]
  | some e =>
    let n : ℕ := e.callCount + 1
    setEntry telemetry model
      ({ e with
          callCount := n
          avgLatencyMs := (e.avgLatencyMs * ((n : ℚ) - 1) + latencyMs) / (n : ℚ)
          latencyMs := latencyMs
          successRate := (e.successRate * ((n : ℚ) - 1) + (if success then 1 else 0)) / (n : ℚ)
          lastUpdated := now })

/-- The `callCount` of a model in a telemetry map, `0` when absent. -/
def callCountOf (telemetry : List (String × ModelTelemetry)) (model : String) : ℕ :=
  ((telemetry.lookup model).map ModelTelemetry.callCount).getD 0

/-- A sequence of `updateTelemetry` calls, applied in order. -/
def applyUpdates (caps : List (String × ModelCapabilities))
    (telemetry : List (String × ModelTelemetry))
    (updates : List (String × ℚ × Bool × ℚ)) : List (String × ModelTelemetry) :=
  updates.foldl (fun tel u => updateTelemetry caps tel u.1 u.2.1 u.2.2.1 u.2.2.2) telemetry

/-- The tier-adjusted base score of `calculateModelScore` before gates:
100, minus 30 when the model tier is below the required tier, minus 10
when it exceeds it by more than one. -/
def tierAdjusted (t : ModelTelemetry) (cfg : RouterConfig) : ℚ :=
  if tierIndex t.capabilityTier < tierIndex (requiredTierFor cfg.task) then 70
  else if tierIndex t.capabilityTier > tierIndex (requiredTierFor cfg.task) + 1 then 90
  else 100

/-- The latency-gate deduction of `calculateModelScore`: 50 when a nonzero
`maxLatencyMs` is configured and the average latency exceeds it. -/
def latencyGate (t : ModelTelemetry) (cfg : RouterConfig) : ℚ :=
  match cfg.maxLatencyMs with
  | some m => if m ≠ 0 ∧ t.avgLatencyMs > m then 50 else 0
  | none => 0

/-- The reliability deduction of `calculateModelScore`. -/
def successPenalty (t : ModelTelemetry) : ℚ :=
  if t.successRate < 0.95 then (1 - t.successRate) * 50 else 0

/-- The recency bonus of `calculateModelScore`. -/
def recencyBoost (t : ModelTelemetry) (now : ℚ) : ℚ :=
  if (now - t.lastUpdated) / (1000 * 60 * 60 * 24) < 1 ∧ t.callCount > 10 then 5 else 0

/-- The telemetry map seeded by `loadTelemetry` when no file exists:
one entry per static model with `callCount = 0`, `successRate = 1`, and
latencies set to the nominal `maxLatencyMs`. -/
def initialTelemetry (caps : List (String × ModelCapabilities)) (now : ℚ) :
    List (String × ModelTelemetry) :=
  caps.map (fun p => (p.1,
    { model := p.1, latencyMs := p.2.maxLatencyMs,
      costPer1kTokens := p.2.baseCostPer1kTokens, successRate := 1,
      capabilityTier := p.2.capabilityTier, lastUpdated := now,
      callCount := 0, avgLatencyMs := p.2.maxLatencyMs }))

end Router

namespace Pipeline

/-- Retry policy constants of the extraction pipeline `CONFIG`. -/
def MAX_RETRIES : ℕ := 3

/-- The constant retry delay `CONFIG.RETRY_DELAY_MS` of the extraction
pipeline, in milliseconds. -/
def RETRY_DELAY_MS : ℚ := 1000

/-- A person record of `chunkExtractionSchema`. -/
structure ExtractedPerson where
  name : String
  role : Option String
  company : Option String
  context : Option String
deriving DecidableEq, Repr

/-- A relationship record of `chunkExtractionSchema`. -/
structure ExtractedRelationship where
  person1 : String
  person2 : String
  relationshipType : String
  evidence : String
deriving DecidableEq, Repr

/-- A per-chunk extraction result. The primary schema has no `summary`
field; the fallback and the synthetic failure object add one, hence the
`Option`. -/
structure ChunkExtraction where
  people : List ExtractedPerson
  companies : List String
  keyConcepts : List String
  relationships : List ExtractedRelationship
  summary : Option String
deriving DecidableEq, Repr

/-- The degraded fallback schema of `extractChunk`: a summary plus
optional name lists. -/
structure FallbackExtraction where
  summary : String
  people : Option (List String)
  companies : Option (List String)
deriving DecidableEq, Repr

/-- Behaviour of the model calls made for one chunk: `primary attempt` is
the outcome of the structured `generateObject` call on that (0-based)
attempt, `fallback` the outcome of the degraded summary call. -/
structure ChunkOracle where
  primary : ℕ → Except String ChunkExtraction
  fallback : Except String FallbackExtraction

/-- The reshaping of a fallback result performed in the fallback branch of
`extractChunk`: names become people with null role and company, missing
lists default to empty, concepts and relationships are empty. -/
def fallbackToChunkExtraction (fb : FallbackExtraction) : ChunkExtraction :=
  { people := (fb.people.getD []).map
      (fun name => { name := name, role := none, company := none, context := none }),
    companies := fb.companies.getD [],
    keyConcepts := [],
    relationships := [],
    summary := some fb.summary }

/-- The synthetic last-resort result of `extractChunk`, carrying the last
primary error message in its summary. -/
def emptyExtraction (chunkIndex : ℕ) (errMsg : String) : ChunkExtraction :=
  { people := [], companies := [], keyConcepts := [], relationships := [],
    summary := some ("Chunk " ++ toString (chunkIndex + 1) ++ " processing failed: " ++ errMsg) }

/-- Transcription of `extractChunk` from `retryCount`, with
`retriesLeft = MAX_RETRIES - retryCount`. The value is an `Except` so that
a thrown exception would be visible as `.error`; alongside the result it
collects the list of retry sleep durations, each the constant
`CONFIG.RETRY_DELAY_MS`. On a primary failure with retries left it sleeps
and recurses; with none left it tries the fallback call, and if that also
fails returns the synthetic empty structure — every branch yields `.ok`. -/
def extractChunkE (oracle : ChunkOracle) (chunkIndex : ℕ) :
    ℕ → ℕ → Except String (ChunkExtraction × List ℚ)
  | retriesLeft, attempt =>
    match oracle.primary attempt with
    | .ok r => .ok (r, [])
    | .error e =>
      match retriesLeft with
      | n + 1 =>
        match extractChunkE oracle chunkIndex n (attempt + 1) with
        | .ok (r, ds) => .ok (r, RETRY_DELAY_MS :: ds)
        | .error e2 => .error e2
      | 0 =>
        match oracle.fallback with
        | .ok fb => .ok (fallbackToChunkExtraction fb, [])
        | .error _ => .ok (emptyExtraction chunkIndex e, [])

/-- The retry sleep durations observed by one `extractChunk` call. -/
def extractChunkDelays (oracle : ChunkOracle) (chunkIndex : ℕ) : List ℚ :=
  match extractChunkE oracle chunkIndex MAX_RETRIES 0 with
  | .ok r => r.2
  | .error _ => []

/-- The resumable `ProcessingState` checkpoint document. -/
structure ProcessingState where
  filePath : String
  totalChunks : ℕ
  completedChunks : List ℕ
  failedChunks : List ℕ
  chunkResults : List (ℕ × ChunkExtraction)
  startTime : ℚ
  lastUpdate : ℚ
deriving DecidableEq, Repr

/-- Transcription of `loadState`: the saved checkpoint is returned only
when its `filePath` matches the requested source. -/
def loadState (saved : Option ProcessingState) (filePath : String) :
    Option ProcessingState :=
  match saved with
  | some st => if st.filePath = filePath then some st else none
  | none => none

/-- The dispatch list built at the top of the extraction `mapPhase`: chunk
indices below the chunk count that are in neither `completedChunks` nor
`failedChunks`. -/
def chunksToProcess (totalChunks : ℕ) (completedChunks failedChunks : List ℕ) : List ℕ :=
  (List.range totalChunks).filter
    (fun i => !completedChunks.contains i && !failedChunks.contains i)

/-- One per-chunk step of the extraction `mapPhase` body: on a normal
return the chunk is recorded and marked completed, and the checkpoint is
written; the `catch` branch (taken only if `extractChunk` threw) marks it
failed. `now` stands for `Date.now()` at the update. -/
def mapPhaseStep (oracle : ℕ → ChunkOracle) (now : ℚ) (state : ProcessingState)
    (i : ℕ) : ProcessingState :=
  match extractChunkE (oracle i) i MAX_RETRIES 0 with
  | .ok r =>
    { state with
        completedChunks := state.completedChunks ++ [i],
        chunkResults := state.chunkResults.filter (fun p => p.1 ≠ i) ++ [(i, r.1)],
        lastUpdate := now }
  | .error _ =>
    { state with failedChunks := state.failedChunks ++ [i] }

/-- The extraction `mapPhase` over `n` chunks: every index in the dispatch
list is processed (the batching by `CONCURRENCY_LIMIT` does not change
which chunks run or the per-chunk state updates, so it is rendered as a
fold). -/
def mapPhase (oracle : ℕ → ChunkOracle) (now : ℚ) (n : ℕ)
    (state : ProcessingState) : ProcessingState :=
  (chunksToProcess n state.completedChunks state.failedChunks).foldl
    (mapPhaseStep oracle now) state

/-- The checkpoint states written during `mapPhase`, initial state first:
one entry per terminal per-chunk outcome. -/
def mapPhaseStates (oracle : ℕ → ChunkOracle) (now : ℚ) (n : ℕ)
    (state : ProcessingState) : List ProcessingState :=
  (chunksToProcess n state.completedChunks state.failedChunks).scanl
    (mapPhaseStep oracle now) state

end Pipeline

namespace Chunker

/-- JavaScript `text.lastIndexOf(c, pos)` on a character list: the largest
index at most `pos` holding `c`, or `-1`. -/
def jsLastIndexOf (text : List Char) (c : Char) (pos : ℕ) : ℤ :=
  (List.range text.length).foldl
    (fun acc i => if i ≤ pos ∧ text.get? i = some c then (i : ℤ) else acc) (-1)

/-- Whitespace for the purposes of JavaScript `String.prototype.trim`
(the characters occurring in this development). -/
def isWS (c : Char) : Bool :=
  c = ' ' ∨ c = '\n' ∨ c = '\t' ∨ c = '\r'

/-- JavaScript `trim`: strip whitespace from both ends. -/
def jsTrim (l : List Char) : List Char :=
  ((l.dropWhile isWS).reverse.dropWhile isWS).reverse

/-- One iteration of the `chunkText` while loop: compute the tentative
end, move it back to just after the last `.` or newline when that break
point lies beyond `start + chunkSize * 0.5`, emit the trimmed slice, and
advance `start` to `chunkEnd - overlap` — except that when that advance
is `≤ 0` the code sets `start = chunkEnd` instead (its guard against an
infinite loop). Returns the new `start` and the emitted piece. -/
def chunkIter (text : List Char) (chunkSize overlap start : ℕ) : ℕ × List Char :=
  let len := text.length
  let e := min (start + chunkSize) len
  let chunkEnd :=
    if e < len then
      let lastPeriod := jsLastIndexOf text '.' e
      let lastNewline := jsLastIndexOf text '\n' e
      let breakPoint := max lastPeriod lastNewline
      if 2 * breakPoint > 2 * (start : ℤ) + (chunkSize : ℤ) then (breakPoint + 1).toNat else e
    else e
  let piece := jsTrim ((text.drop start).take (chunkEnd - start))
  let start' := if chunkEnd ≤ overlap then chunkEnd else chunkEnd - overlap
  (start', piece)

/-- `chunkText` with explicit fuel: the while loop `while (start <
text.length)` run for at most `fuel` iterations. `none` means the loop has
not finished within the fuel; the loop of the source terminates on an
input exactly when some fuel suffices. On exit the collected pieces are
filtered to the nonempty ones, as in the source. -/
def chunkTextFuel (text : List Char) (chunkSize overlap : ℕ) :
    ℕ → ℕ → List (List Char) → Option (List (List Char))
  | 0, _, _ => none
  | fuel + 1, start, acc =>
    if start < text.length then
      chunkTextFuel text chunkSize overlap fuel
        (chunkIter text chunkSize overlap start).1
        (acc ++ [(chunkIter text chunkSize overlap start).2])
    else some (acc.filter (fun c => c.length > 0))

/-- A 12-character input on which `chunkText` with `chunkSize = 10`,
`overlap = 9` loops forever: with no sentence break, `start` reaches the
fixed point `3`, where `chunkEnd = 12` and `start` advances back to
`12 - 9 = 3`. -/
def loopText : List Char := List.replicate 12 'a'

end Chunker

namespace Summarize

/-- Retry policy constants of `CHUNK_CONFIG` in the comment summarizer. -/
def MAX_RETRIES : ℕ := 3

/-- The initial retry delay `CHUNK_CONFIG.RETRY_DELAY_MS`, milliseconds. -/
def RETRY_DELAY_MS : ℚ := 1000

/-- A structured summary (`summarizationSchema`). -/
structure Summary where
  headline : String
  context : String
  discussionPoints : String
  takeaways : String
deriving DecidableEq, Repr

/-- JavaScript `s.substring(a, b)` for `a ≤ b` within bounds. -/
def jsSubstring (s : String) (a b : ℕ) : String :=
  String.mk ((s.toList.drop a).take (b - a))

/-- Transcription of `createFallbackSummary`. Comments are modelled by
their extracted text (`c.content || c.text || JSON.stringify(c)`). -/
def createFallbackSummary (chunk : List String) (chunkIndex : ℕ)
    (errMsg : String) : Summary :=
  let commentTexts := String.intercalate " " chunk
  { headline := "Summary of chunk " ++ toString (chunkIndex + 1) ++ " (partial)",
    context := "Unable to fully process this chunk due to: " ++ errMsg ++
      ". Showing partial information.",
    discussionPoints := "Comments in this chunk: " ++ toString chunk.length ++
      ". Content preview: " ++ jsSubstring commentTexts 0 200 ++ "...",
    takeaways := "This chunk encountered processing errors and may be incomplete. Please review manually if critical." }

/-- Transcription of `mapChunkToSummary` from `retryCount`, with
`retriesLeft = MAX_RETRIES - retryCount`; `primary attempt` is the outcome
of the `generateObject` call on that attempt. Collects the retry sleep
durations: on the failure of attempt `retryCount` with retries left, the
delay is `RETRY_DELAY_MS * 2 ^ retryCount`. After the last retry it
returns the fallback summary. -/
def mapChunkGo (primary : ℕ → Except String Summary) (chunk : List String)
    (chunkIndex : ℕ) : ℕ → ℕ → Summary × List ℚ
  | retriesLeft, retryCount =>
    match primary retryCount with
    | .ok s => (s, [])
    | .error e =>
      match retriesLeft with
      | n + 1 =>
        let r' := mapChunkGo primary chunk chunkIndex n (retryCount + 1)
        (r'.1, RETRY_DELAY_MS * 2 ^ retryCount :: r'.2)
      | 0 => (createFallbackSummary chunk chunkIndex e, [])

/-- `mapChunkToSummary` as called, with `retryCount = 0`. -/
def mapChunkToSummary (primary : ℕ → Except String Summary) (chunk : List String)
    (chunkIndex : ℕ) : Summary × List ℚ :=
  mapChunkGo primary chunk chunkIndex MAX_RETRIES 0

end Summarize

namespace RateLimit

/-- A rate-limit entry (`RateLimitEntry` of `lib/rate-limit.ts`). -/
structure RLEntry where
  count : ℕ
  resetAt : ℚ
deriving DecidableEq, Repr

/-- A rate-limit entry as stored in the memory cache, with the cache
expiry computed from the write TTL. -/
structure StoredEntry where
  entry : RLEntry
  expires : ℚ
deriving DecidableEq, Repr

/-- `MemoryCache.get` for the rate-limit key: an entry whose `expires` is
strictly before `now` reads as absent. -/
def rlGet (store : Option StoredEntry) (now : ℚ) : Option RLEntry :=
  match store with
  | none => none
  | some s => if s.expires < now then none else some s.entry

/-- `MemoryCache.set` for the rate-limit key, with `expires = now +
ttlSeconds * 1000`. -/
def rlSet (e : RLEntry) (ttlSeconds : ℚ) (now : ℚ) : Option StoredEntry :=
  some { entry := e, expires := now + ttlSeconds * 1000 }

/-- The result triple of `checkRateLimit`. -/
structure RLResult where
  allowed : Bool
  remaining : ℤ
  resetAt : ℚ
deriving DecidableEq, Repr

/-- Transcription of `checkRateLimit` for one client key, over the stored
entry for that key (the in-memory cache path, whose operations do not
throw, so the fail-open catch is not taken). Fresh or expired window:
count 1, TTL the full window. Count at the limit: blocked. Otherwise:
increment and write back with TTL the remaining window seconds, rounded
up. -/
def checkRateLimit (store : Option StoredEntry) (now : ℚ) (maxRequests : ℕ)
    (windowSeconds : ℚ) : RLResult × Option StoredEntry :=
  let windowMs := windowSeconds * 1000
  match rlGet store now with
  | none =>
    let newEntry : RLEntry := { count := 1, resetAt := now + windowMs }
    (⟨true, (maxRequests : ℤ) - 1, newEntry.resetAt⟩, rlSet newEntry windowSeconds now)
  | some entry =>
    if entry.resetAt < now then
      let newEntry : RLEntry := { count := 1, resetAt := now + windowMs }
      (⟨true, (maxRequests : ℤ) - 1, newEntry.resetAt⟩, rlSet newEntry windowSeconds now)
    else if entry.count ≥ maxRequests then
      (⟨false, 0, entry.resetAt⟩, store)
    else
      let e' : RLEntry := { count := entry.count + 1, resetAt := entry.resetAt }
      (⟨true, (maxRequests : ℤ) - (e'.count : ℤ), e'.resetAt⟩,
        rlSet e' ((⌈(entry.resetAt - now) / 1000⌉ : ℤ) : ℚ) now)

/-- The rate-limit interactions of one valid, non-streaming `POST
/api/moderation` request from one client: `rateLimitMiddleware` runs
`checkRateLimit` with the environment-configured policy and returns 429
when denied; on success the handler moderates the message (which never
touches the rate-limit key) and then calls `checkRateLimit` again with
`DEFAULT_RATE_LIMIT = (100, 60)` to fill the response headers. Returns
the HTTP status and the stored entry afterwards. -/
def postRequest (store : Option StoredEntry) (now : ℚ) (envMax : ℕ)
    (envWindow : ℚ) : ℕ × Option StoredEntry :=
  let mw := checkRateLimit store now envMax envWindow
  if mw.1.allowed = false then (429, mw.2)
  else
    let hdr := checkRateLimit mw.2 now 100 60
    (200, hdr.2)

/-- A sequence of such requests at the given times, collecting the HTTP
statuses. -/
def postSeq (store : Option StoredEntry) (times : List ℚ) (envMax : ℕ)
    (envWindow : ℚ) : List ℕ × Option StoredEntry :=
  times.foldl (fun acc t =>
    let r := postRequest acc.2 t envMax envWindow
    (acc.1 ++ [r.1], r.2)) ([], store)

end RateLimit

namespace Moderation

/-- Severity levels of `moderationSchema`. -/
inductive Severity
  | safe
  | warning
  | critical
deriving DecidableEq, Repr

/-- Content categories of `moderationSchema`. -/
inductive ModCategory
  | spam
  | violence
  | hateSpeech
  | harassment
  | pii
  | explicitContent
  | misinformation
  | selfHarm
  | otherViolation
deriving DecidableEq, Repr

/-- A moderation result (`moderationSchema`). -/
structure ModerationResult where
  language : String
  languageCode : String
  severity : Severity
  categories : List ModCategory
  confidence : ℚ
  riskScore : ℚ
  flagged : Bool
  reasoning : String
deriving DecidableEq, Repr

/-- Outcome of the `generateObject` moderation call. -/
inductive ModelOutcome
  | success (r : ModerationResult)
  | failure (errMsg : String)
deriving DecidableEq, Repr

/-- `cacheAdapter.set` on the moderation result cache: overwrite the
binding for the key (TTL bookkeeping is not represented — expiry only
removes entries and no claim here depends on it). -/
def cacheSet (cache : List (String × ModerationResult)) (key : String)
    (r : ModerationResult) : List (String × ModerationResult) :=
  cache.filter (fun p => p.1 ≠ key) ++ [(key, r)]

/-- The conservative default returned by the `catch` branch of
`moderateMessage`. -/
def safeDefault (errMsg : String) : ModerationResult :=
  { language := "Unknown", languageCode := "en", severity := .safe,
    categories := [], confidence := 0, riskScore := 0, flagged := false,
    reasoning := "Error during moderation: " ++ errMsg }

/-- The cache interactions of `moderateMessage` (non-streaming path,
`skipCache = false`): on a cache hit the cached result is returned with
`cached = true` and nothing is written; on a miss the model call either
succeeds — and the result is written back exactly when its severity is not
`critical` — or fails, returning the safe default without writing.
Telemetry and rolling metrics do not touch this cache and are elided.
Returns the result, the `cached` flag and the cache afterwards. -/
def moderateMessage (cache : List (String × ModerationResult)) (cacheKey : String)
    (outcome : ModelOutcome) :
    ModerationResult × Bool × List (String × ModerationResult) :=
  match cache.lookup cacheKey with
  | some cached => (cached, true, cache)
  | none =>
    match outcome with
    | .success r =>
      let cache' := if r.severity ≠ .critical then cacheSet cache cacheKey r else cache
      (r, false, cache')
    | .failure e => (safeDefault e, false, cache)

/-- A sequence of `moderateMessage` calls threaded through the cache. -/
def runModeration (cache : List (String × ModerationResult))
    (calls : List (String × ModelOutcome)) : List (String × ModerationResult) :=
  calls.foldl (fun c call => (moderateMessage c call.1 call.2).2.2) cache

end Moderation

namespace Router

/-- The telemetry record that `loadTelemetry` seeds for `openai/gpt-4.1`
when no telemetry file exists (at time 0). -/
def tel41 : ModelTelemetry :=
  { model := "openai/gpt-4.1", latencyMs := 3000, costPer1kTokens := 0.03,
    successRate := 1, capabilityTier := .standard, lastUpdated := 0,
    callCount := 0, avgLatencyMs := 3000 }

/-- A classification request whose required capability `foo` is supported
by no model. -/
def cfgFoo : RouterConfig :=
  { task := .classification, priority := .cost, complexity := .low,
    requiredCapabilities := some ["foo"] }

/-- A telemetry stats record with `successRate = 0` and `basic` tier, used
to drive scores to the floor. -/
def tBase : ModelTelemetry :=
  { model := "x", latencyMs := 0, costPer1kTokens := 0.03, successRate := 0,
    capabilityTier := .basic, lastUpdated := 0, callCount := 0, avgLatencyMs := 0 }

/-- A speed-priority reasoning request. -/
def cfgR : RouterConfig :=
  { task := .reasoning, priority := .speed, complexity := .high }

end Router

namespace Moderation

/-- A concrete warning-severity moderation result. -/
def warnResult : ModerationResult :=
  { language := "English", languageCode := "en", severity := .warning,
    categories := [.spam], confidence := 0.9, riskScore := 40,
    flagged := true, reasoning := "promotional content" }

end Moderation

namespace Router

/-- A telemetry entry with one recorded call, for witnesses. -/
def mEntry : ModelTelemetry :=
  { model := "m", latencyMs := 100, costPer1kTokens := 1, successRate := 1,
    capabilityTier := .standard, lastUpdated := 0, callCount := 1,
    avgLatencyMs := 100 }

/-- A speed-priority classification request, for witnesses. -/
def cfgS : RouterConfig :=
  { task := .classification, priority := .speed, complexity := .low }

end Router

namespace Pipeline

/-- A fresh checkpoint for a one-chunk document, for witnesses. -/
def freshState : ProcessingState :=
  { filePath := "essay.txt", totalChunks := 1, completedChunks := [],
    failedChunks := [], chunkResults := [], startTime := 0, lastUpdate := 0 }

end Pipeline

open Router Pipeline Chunker Summarize RateLimit Moderation

section Helpers

/-- Lookup distributes over append: the first list wins. -/
theorem lookup_append {α β : Type} [BEq α] (a : α) (l₁ l₂ : List (α × β)) :
    List.lookup a (l₁ ++ l₂) = (List.lookup a l₁).or (List.lookup a l₂) := by
  induction l₁ with
  | nil => simp [List.lookup]
  | cons p t ih =>
    by_cases h : a == p.1
    · simp [List.lookup, h, Option.or]
    · simp only [List.cons_append, List.lookup, h]
      simpa [h] using ih

/-- After `setEntry tel model e`, looking up `model` finds `e`, provided
`model` was bound before. -/
theorem lookup_setEntry_eq (tel : List (String × ModelTelemetry)) (model : String)
    (e e₀ : ModelTelemetry) (h : tel.lookup model = some e₀) :
    (Router.setEntry tel model e).lookup model = some e := by
  induction tel with
  | nil => simp [List.lookup] at h
  | cons p t ih =>
    obtain ⟨k, v⟩ := p
    cases hkm : (k == model) with
    | true =>
      have hmk : (model == k) = true := beq_iff_eq.mpr (beq_iff_eq.mp hkm).symm
      simp [Router.setEntry, hkm, List.lookup, hmk]
    | false =>
      have hmk : (model == k) = false :=
        beq_eq_false_iff_ne.mpr (Ne.symm (beq_eq_false_iff_ne.mp hkm))
      simp only [List.lookup, hmk] at h
      simpa [Router.setEntry, hkm, List.lookup, hmk] using ih h

/-- `setEntry` leaves other keys alone. -/
theorem lookup_setEntry_ne (tel : List (String × ModelTelemetry)) (model m' : String)
    (e : ModelTelemetry) (h : m' ≠ model) :
    (Router.setEntry tel model e).lookup m' = tel.lookup m' := by
  induction tel with
  | nil => simp [Router.setEntry]
  | cons p t ih =>
    obtain ⟨k, v⟩ := p
    cases hkm : (k == model) with
    | true =>
      have hne : (m' == k) = false :=
        beq_eq_false_iff_ne.mpr (fun hmp => h (hmp.trans (beq_iff_eq.mp hkm)))
      simpa [Router.setEntry, hkm, List.lookup, hne] using ih
    | false =>
      cases hm : (m' == k) with
      | false => simpa [Router.setEntry, hkm, List.lookup, hm] using ih
      | true => simp [Router.setEntry, hkm, List.lookup, hm]

/-- A single `updateTelemetry` call never decreases any model's
`callCount`. -/
theorem updateTelemetry_callCount_mono (caps : List (String × ModelCapabilities))
    (tel : List (String × ModelTelemetry)) (m m' : String) (lat : ℚ) (s : Bool)
    (now : ℚ) :
    callCountOf tel m' ≤ callCountOf (updateTelemetry caps tel m lat s now) m' := by
  unfold Router.updateTelemetry
  rcases hm : tel.lookup m with _ | e
  · simp only [Router.callCountOf, lookup_append]
    rcases hm' : tel.lookup m' with _ | e'
    · simp [Option.or]
    · simp [Option.or, hm']
  · simp only [Router.callCountOf]
    by_cases h : m' = m
    · subst h
      rw [lookup_setEntry_eq tel m' _ e hm, hm]
      simp
    · rw [lookup_setEntry_ne tel m m' _ h]

end Helpers

/-- C1. `calculateModelScore` never inspects `requiredCapabilities`: the
score and reason are unchanged under any replacement of that field, so no
candidate is ever made ineligible by a required capability. The statement
about `supports_structured_output = false` backends holds vacuously:
every model in the static capability table supports structured output. -/
theorem C1_score_independent_of_requiredCapabilities :
    (∀ (caps : List (String × ModelCapabilities)) (model : String)
        (tel : ModelTelemetry) (cfg : RouterConfig) (now : ℚ)
        (rc1 rc2 : Option (List String)),
      calculateModelScore caps model tel { cfg with requiredCapabilities := rc1 } now
        = calculateModelScore caps model tel { cfg with requiredCapabilities := rc2 } now) ∧
    (MODEL_CAPABILITIES.all (fun p => p.2.supportsStructuredOutput)) := by
  constructor
  · intro caps model tel cfg now rc1 rc2
    rfl
  · decide

/-- C1, counterexample. `openai/gpt-4.1` does not support the required
capability `foo`, yet `calculateModelScore` gives it the nonzero score
7090/3 and `selectModel` selects it. -/
theorem C1_requiredCapabilities_gate_missing :
    (∃ c, MODEL_CAPABILITIES.lookup "openai/gpt-4.1" = some c ∧
       supportsCapability c "foo" = false) ∧
    cfgFoo.requiredCapabilities = some ["foo"] ∧
    (calculateModelScore MODEL_CAPABILITIES "openai/gpt-4.1" tel41 cfgFoo 0).1 = 7090 / 3 ∧
    (selectModel MODEL_CAPABILITIES [("openai/gpt-4.1", tel41)] cfgFoo 0 []).1
      = "openai/gpt-4.1" := by
  refine ⟨⟨⟨.standard, 0.03, 3000, true, true⟩, rfl, rfl⟩, rfl, ?_, rfl⟩
  have hl : MODEL_CAPABILITIES.lookup "openai/gpt-4.1"
      = some ⟨.standard, 0.03, 3000, true, true⟩ := rfl
  simp only [Router.calculateModelScore, hl]
  norm_num [Router.tel41, Router.cfgFoo, Router.tierIndex, Router.requiredTierFor]

/-- C2. Which chunks the extraction map phase dispatches on (re)start:
exactly the indices below the chunk count that are in neither the
completed nor the failed set of the loaded state — failed chunks are
skipped, not retried. -/
theorem C2_dispatch_iff_not_completed_and_not_failed
    (n : ℕ) (completed failed : List ℕ) (i : ℕ) :
    i ∈ chunksToProcess n completed failed ↔
      i < n ∧ i ∉ completed ∧ i ∉ failed := by
  simp [Pipeline.chunksToProcess, List.mem_filter, and_assoc]

/-- C2, counterexample. With one chunk, nothing completed and chunk `0`
failed, the claim predicts chunk `0` is re-enqueued (it is not in
`completedChunks`), but the dispatch list is empty. -/
theorem C2_failed_chunk_not_redispatched :
    (0 : ℕ) ∉ ([] : List ℕ) ∧ chunksToProcess 1 [] [0] = [] := by
  exact ⟨by decide, by decide⟩

/-- C3. Evaluation of the moderation endpoint at the claimed scenario:
rate-limit policy `max = 3`, `window = 60 s`, four valid non-streaming
requests from one client at t = 0 s, 1 s, 2 s, 3 s against an empty
window. The statuses are 200, 200, 429, 429 — the third request is
already rejected, because each successful request runs `checkRateLimit`
twice (once in `rateLimitMiddleware` and once more, with the default
policy on the same key, to fill the response headers). -/
theorem C3_third_request_rejected :
    (postSeq none [0, 1000, 2000, 3000] 3 60).1 = [200, 200, 429, 429] := by
  norm_num [RateLimit.postSeq, RateLimit.postRequest, RateLimit.checkRateLimit,
    RateLimit.rlGet, RateLimit.rlSet, List.foldl]

/-- C4, counterexample. On a chunk whose structured-extraction call fails
on every attempt, `extractChunk` sleeps 1000 ms before each of its three
retries; the claimed exponential schedule would make the second delay
(retry number 1) equal 2000 ms. -/
theorem C4_extractChunk_constant_delay :
    extractChunkDelays ⟨fun _ => .error "boom", .error "boom"⟩ 0
        = [1000, 1000, 1000] ∧
    (1000 : ℚ) ≠ Pipeline.RETRY_DELAY_MS * 2 ^ (1 : ℕ) := by
  exact ⟨rfl, by norm_num [Pipeline.RETRY_DELAY_MS]⟩

/-- C8, counterexample. When the moderation model call fails, the returned
result has severity `safe` (not critical), yet nothing is written to the
cache — the claimed "updated iff severity is not critical" fails on the
error path. -/
theorem C8_error_path_not_cached :
    ¬ (((moderateMessage [] "k" (.failure "boom")).2.2.lookup "k"
          = some (moderateMessage [] "k" (.failure "boom")).1) ↔
        (moderateMessage [] "k" (.failure "boom")).1.severity ≠ .critical) := by
  decide

/-- C9, counterexample. When the loaded telemetry table is empty,
`selectModel` takes the fallback early return and appends no decision
record: the history is unchanged, not extended by one. -/
theorem C9_empty_table_records_nothing :
    (selectModel MODEL_CAPABILITIES [] cfgR 0 []).2 = [] ∧
    (selectModel MODEL_CAPABILITIES [] cfgR 0 []).1 = "openai/gpt-4.1" := by
  exact ⟨rfl, rfl⟩

/-- C7, counterexample. Priority `speed`, two candidate backends whose
telemetry differs only in `avgLatencyMs` (7000 ms vs 1000 ms). Both raw
scores are negative (success rate 0, basic tier on a reasoning task) and
floor to 0, so the stable sort keeps insertion order and the
higher-latency backend listed first is selected. -/
theorem C7_floored_tie_breaks_claim :
    cfgR.priority = .speed ∧
    (0 : ℚ) < 1000 ∧ (1000 : ℚ) < 7000 ∧
    (selectModel MODEL_CAPABILITIES
        [("openai/gpt-5-mini", { tBase with avgLatencyMs := 7000 }),
         ("openai/gpt-4.1", { tBase with avgLatencyMs := 1000 })] cfgR 0 []).1
      = "openai/gpt-5-mini" := by
  refine ⟨rfl, by norm_num, by norm_num, ?_⟩
  have h5 : (calculateModelScore MODEL_CAPABILITIES "openai/gpt-5-mini"
      { tBase with avgLatencyMs := 7000 } cfgR 0).1 = 0 := by
    have hl : MODEL_CAPABILITIES.lookup "openai/gpt-5-mini"
        = some ⟨.reasoning, 0.05, 10000, true, true⟩ := rfl
    simp only [Router.calculateModelScore, hl]
    norm_num [Router.tBase, Router.cfgR, Router.tierIndex, Router.requiredTierFor]
  have h4 : (calculateModelScore MODEL_CAPABILITIES "openai/gpt-4.1"
      { tBase with avgLatencyMs := 1000 } cfgR 0).1 = 0 := by
    have hl : MODEL_CAPABILITIES.lookup "openai/gpt-4.1"
        = some ⟨.standard, 0.03, 3000, true, true⟩ := rfl
    simp only [Router.calculateModelScore, hl]
    norm_num [Router.tBase, Router.cfgR, Router.tierIndex, Router.requiredTierFor]
  simp [Router.selectModel, Router.sortByScoreDesc, Router.insertByScoreDesc, h5, h4]

/-- C5. `updateTelemetry` on an existing entry with prior count `n - 1 ≥ 1`
sets `callCount = n`, replaces the running means by
`(old·(n-1) + observation)/n`, and records the last latency; and across any
sequence of `updateTelemetry` calls no model's `callCount` ever decreases. -/
theorem C5_updateTelemetry_running_means :
    (∀ (caps : List (String × ModelCapabilities))
        (tel : List (String × ModelTelemetry)) (model : String)
        (e : ModelTelemetry) (lat : ℚ) (succ : Bool) (now : ℚ),
      tel.lookup model = some e → 1 ≤ e.callCount →
      ∃ e', (updateTelemetry caps tel model lat succ now).lookup model = some e' ∧
        e'.callCount = e.callCount + 1 ∧
        e'.avgLatencyMs
          = (e.avgLatencyMs * (e.callCount : ℚ) + lat) / ((e.callCount : ℚ) + 1) ∧
        e'.successRate
          = (e.successRate * (e.callCount : ℚ) + (if succ then 1 else 0))
              / ((e.callCount : ℚ) + 1) ∧
        e'.latencyMs = lat) ∧
    (∀ (caps : List (String × ModelCapabilities))
        (tel : List (String × ModelTelemetry))
        (updates : List (String × ℚ × Bool × ℚ)) (model : String),
      callCountOf tel model ≤ callCountOf (applyUpdates caps tel updates) model) := by
  constructor
  · intro caps tel model e lat succ now h _hn
    have hup : (updateTelemetry caps tel model lat succ now).lookup model = some
        ({ e with
            callCount := e.callCount + 1,
            avgLatencyMs := (e.avgLatencyMs * (((e.callCount + 1 : ℕ) : ℚ) - 1) + lat)
              / ((e.callCount + 1 : ℕ) : ℚ),
            latencyMs := lat,
            successRate := (e.successRate * (((e.callCount + 1 : ℕ) : ℚ) - 1)
                + (if succ then 1 else 0)) / ((e.callCount + 1 : ℕ) : ℚ),
            lastUpdated := now }) := by
      unfold Router.updateTelemetry
      rw [h]
      exact lookup_setEntry_eq tel model _ e h
    refine ⟨_, hup, rfl, ?_, ?_, rfl⟩
    · show (e.avgLatencyMs * (((e.callCount + 1 : ℕ) : ℚ) - 1) + lat)
          / ((e.callCount + 1 : ℕ) : ℚ)
        = (e.avgLatencyMs * (e.callCount : ℚ) + lat) / ((e.callCount : ℚ) + 1)
      push_cast
      ring_nf
    · show (e.successRate * (((e.callCount + 1 : ℕ) : ℚ) - 1) + (if succ then 1 else 0))
          / ((e.callCount + 1 : ℕ) : ℚ)
        = (e.successRate * (e.callCount : ℚ) + (if succ then 1 else 0))
            / ((e.callCount : ℚ) + 1)
      push_cast
      ring_nf
  · intro caps tel updates
    induction updates generalizing tel with
    | nil => intro model; exact le_refl _
    | cons u us ih =>
      intro model
      exact le_trans (updateTelemetry_callCount_mono caps tel u.1 model u.2.1 u.2.2.1 u.2.2.2)
        (ih _ model)

/-- C5, witness: one update on a concrete single-entry map with
`callCount = 1`. -/
theorem C5_updateTelemetry_running_means_witness :
    (∃ e', (updateTelemetry MODEL_CAPABILITIES [("m", mEntry)] "m" 200 true 5).lookup "m"
        = some e' ∧
      e'.callCount = mEntry.callCount + 1 ∧
      e'.avgLatencyMs
        = (mEntry.avgLatencyMs * (mEntry.callCount : ℚ) + 200)
            / ((mEntry.callCount : ℚ) + 1) ∧
      e'.successRate
        = (mEntry.successRate * (mEntry.callCount : ℚ) + (if true then 1 else 0))
            / ((mEntry.callCount : ℚ) + 1) ∧
      e'.latencyMs = 200) ∧
    callCountOf [("m", mEntry)] "m"
      ≤ callCountOf (applyUpdates MODEL_CAPABILITIES [("m", mEntry)]
          [("m", 200, true, 5)]) "m" := by
  constructor
  · exact C5_updateTelemetry_running_means.1 MODEL_CAPABILITIES [("m", mEntry)] "m" mEntry
      200 true 5 rfl (by norm_num [Router.mEntry])
  · exact C5_updateTelemetry_running_means.2 MODEL_CAPABILITIES [("m", mEntry)]
      [("m", 200, true, 5)] "m"

/-- Inserting into the score-sorted list never yields the empty list. -/
theorem insertByScoreDesc_ne_nil (x : ScoredEntry) (l : List ScoredEntry) :
    insertByScoreDesc x l ≠ [] := by
  cases l with
  | nil => simp [Router.insertByScoreDesc]
  | cons y ys =>
    simp only [Router.insertByScoreDesc]
    split
    · simp
    · simp

/-- Sorting a nonempty scored list yields a nonempty list. -/
theorem sortByScoreDesc_ne_nil (x : ScoredEntry) (l : List ScoredEntry) :
    sortByScoreDesc (x :: l) ≠ [] := by
  simp only [Router.sortByScoreDesc, List.foldr]
  exact insertByScoreDesc_ne_nil x _

/-- `takeLast n` keeps at most `n` elements. -/
theorem takeLast_length_le {α : Type} (n : ℕ) (l : List α) :
    (Router.takeLast n l).length ≤ n := by
  simp only [Router.takeLast, List.length_drop]
  omega

/-- `takeLast n` of a list ending in `d` still ends in `d`, for `n ≥ 1`. -/
theorem getLast_takeLast_concat {α : Type} (xs : List α) (d : α) (n : ℕ)
    (hn : 1 ≤ n) : (Router.takeLast n (xs ++ [d])).getLast? = some d := by
  simp only [Router.takeLast]
  have hk : (xs ++ [d]).length - n ≤ xs.length := by
    simp only [List.length_append, List.length_singleton]
    omega
  rw [List.drop_append_of_le_length hk]
  simp

set_option maxRecDepth 4000 in
/-- C9. When the loaded telemetry table is nonempty, `selectModel` appends
exactly one decision record: the persisted history becomes the previous
file truncated to 100, plus the new record, truncated to 100 again — so its
length never exceeds 100 and its most recent entry is the new decision
(timestamped with the current moment and carrying the request config). The
empty-table fallback records nothing (see the counterexample). -/
theorem C9_decision_recorded (caps : List (String × ModelCapabilities))
    (tel : List (String × ModelTelemetry)) (cfg : RouterConfig) (now : ℚ)
    (hist : List RoutingDecision) (h : tel ≠ []) :
    ∃ d : RoutingDecision,
      (selectModel caps tel cfg now hist).2
        = takeLast 100 (takeLast 100 hist ++ [d]) ∧
      (selectModel caps tel cfg now hist).2.length ≤ 100 ∧
      (selectModel caps tel cfg now hist).2.getLast? = some d ∧
      d.timestamp = now ∧ d.config = cfg := by
  rcases tel with _ | ⟨p, ts⟩
  · exact absurd rfl h
  · simp only [Router.selectModel]
    split
    · rename_i heq
      exact absurd heq (by
        rw [List.map_cons]
        exact sortByScoreDesc_ne_nil _ _)
    · refine ⟨_, rfl, ?_, ?_, rfl, rfl⟩
      · exact takeLast_length_le 100 _
      · exact getLast_takeLast_concat _ _ 100 (by omega)

/-- C9, witness: a one-model telemetry table. -/
theorem C9_decision_recorded_witness :
    ∃ d : RoutingDecision,
      (selectModel MODEL_CAPABILITIES [("m", mEntry)] cfgS 7 []).2
        = takeLast 100 (takeLast 100 [] ++ [d]) ∧
      (selectModel MODEL_CAPABILITIES [("m", mEntry)] cfgS 7 []).2.length ≤ 100 ∧
      (selectModel MODEL_CAPABILITIES [("m", mEntry)] cfgS 7 []).2.getLast? = some d ∧
      d.timestamp = 7 ∧ d.config = cfgS :=
  C9_decision_recorded MODEL_CAPABILITIES [("m", mEntry)] cfgS 7 []
    (by simp)

/-- Every branch of `extractChunk` resolves: no exception escapes any
retry depth or attempt number. -/
theorem extractChunkE_ok (oracle : ChunkOracle) (ci : ℕ) :
    ∀ rl a, ∃ r, extractChunkE oracle ci rl a = .ok r := by
  intro rl
  induction rl with
  | zero =>
    intro a
    cases hp : oracle.primary a with
    | ok r => exact ⟨(r, []), by simp [Pipeline.extractChunkE, hp]⟩
    | error e =>
      cases hf : oracle.fallback with
      | ok fb =>
        exact ⟨(fallbackToChunkExtraction fb, []), by simp [Pipeline.extractChunkE, hp, hf]⟩
      | error e2 =>
        exact ⟨(emptyExtraction ci e, []), by simp [Pipeline.extractChunkE, hp, hf]⟩
  | succ n ih =>
    intro a
    cases hp : oracle.primary a with
    | ok r => exact ⟨(r, []), by simp [Pipeline.extractChunkE, hp]⟩
    | error e =>
      obtain ⟨r, hr⟩ := ih (a + 1)
      exact ⟨(r.1, Pipeline.RETRY_DELAY_MS :: r.2),
        by simp [Pipeline.extractChunkE, hp, hr]⟩

/-- One step of the extraction map phase leaves `failedChunks` unchanged,
because its error branch is unreachable. -/
theorem mapPhaseStep_failed (oracle : ℕ → ChunkOracle) (now : ℚ)
    (state : ProcessingState) (i : ℕ) :
    (mapPhaseStep oracle now state i).failedChunks = state.failedChunks := by
  obtain ⟨r, hr⟩ := extractChunkE_ok (oracle i) i Pipeline.MAX_RETRIES 0
  simp [Pipeline.mapPhaseStep, hr]

/-- Every checkpoint written while folding the map phase over a dispatch
list keeps the initial `failedChunks`. -/
theorem scanl_mapPhaseStep_failed (oracle : ℕ → ChunkOracle) (now : ℚ) :
    ∀ (l : List ℕ) (st : ProcessingState)
      (s : ProcessingState), s ∈ List.scanl (mapPhaseStep oracle now) st l →
      s.failedChunks = st.failedChunks := by
  intro l
  induction l with
  | nil =>
    intro st s hs
    simp only [List.scanl_nil, List.mem_singleton] at hs
    rw [hs]
  | cons i is ih =>
    intro st s hs
    rw [List.scanl_cons] at hs
    rcases List.mem_cons.mp hs with rfl | hs2
    · rfl
    · rw [ih _ _ hs2, mapPhaseStep_failed]

/-- C10. `extractChunk` is total — for every behaviour of the primary and
fallback model calls it resolves with a result (at worst the synthetic
empty structure whose summary carries the error) and never rejects — so
the map phase `catch` branch never runs: every checkpoint written during
the map phase keeps the initial `failedChunks`, and when the run starts
with no failed chunks every checkpoint has empty `failedChunks`, trivially
disjoint from `completedChunks`. -/
theorem C10_extractChunk_total_failed_empty :
    (∀ (oracle : ChunkOracle) (ci : ℕ),
      ∃ r, extractChunkE oracle ci Pipeline.MAX_RETRIES 0 = .ok r) ∧
    (∀ (oracle : ℕ → ChunkOracle) (now : ℚ) (n : ℕ) (state : ProcessingState)
        (s : ProcessingState), s ∈ mapPhaseStates oracle now n state →
      s.failedChunks = state.failedChunks) ∧
    (∀ (oracle : ℕ → ChunkOracle) (now : ℚ) (n : ℕ) (state : ProcessingState)
        (s : ProcessingState), state.failedChunks = [] →
      s ∈ mapPhaseStates oracle now n state →
      s.failedChunks = [] ∧ ∀ i ∈ s.completedChunks, i ∉ s.failedChunks) := by
  refine ⟨fun oracle ci => extractChunkE_ok oracle ci Pipeline.MAX_RETRIES 0, ?_, ?_⟩
  · intro oracle now n state s hs
    exact scanl_mapPhaseStep_failed oracle now _ state s hs
  · intro oracle now n state s h0 hs
    have hf : s.failedChunks = [] := by
      rw [scanl_mapPhaseStep_failed oracle now _ state s hs, h0]
    exact ⟨hf, fun i _ => by simp [hf]⟩

/-- C10, witness: a one-chunk fresh run whose model calls all fail. -/
theorem C10_extractChunk_total_failed_empty_witness :
    (∃ r, extractChunkE ⟨fun _ => .error "b", .error "b"⟩ 0
        Pipeline.MAX_RETRIES 0 = .ok r) ∧
    (freshState.failedChunks = [] ∧
      ∀ i ∈ freshState.completedChunks, i ∉ freshState.failedChunks) := by
  constructor
  · exact C10_extractChunk_total_failed_empty.1 ⟨fun _ => .error "b", .error "b"⟩ 0
  · exact C10_extractChunk_total_failed_empty.2.2 (fun _ => ⟨fun _ => .error "b", .error "b"⟩)
      0 1 freshState freshState rfl
      (by
        simp only [Pipeline.mapPhaseStates]
        cases h : Pipeline.chunksToProcess 1 freshState.completedChunks
            freshState.failedChunks with
        | nil => simp
        | cons a l => simp [List.scanl_cons])

/-- The delay trace of the comment summarizer from any retry state: the
entry for retry number `a + k` is `RETRY_DELAY_MS * 2 ^ (a + k)`. -/
theorem mapChunkGo_delay_get (primary : ℕ → Except String Summary)
    (chunk : List String) (ci : ℕ) :
    ∀ (rl a k : ℕ) (h : k < (mapChunkGo primary chunk ci rl a).2.length),
      (mapChunkGo primary chunk ci rl a).2.get ⟨k, h⟩
        = Summarize.RETRY_DELAY_MS * 2 ^ (a + k) := by
  intro rl
  induction rl with
  | zero =>
    intro a k h
    exfalso
    cases hp : primary a with
    | ok s => simp [Summarize.mapChunkGo, hp] at h
    | error e => simp [Summarize.mapChunkGo, hp] at h
  | succ n ih =>
    intro a k h
    cases hp : primary a with
    | ok s =>
      exfalso
      simp [Summarize.mapChunkGo, hp] at h
    | error e =>
      have hd : (mapChunkGo primary chunk ci (n + 1) a).2
          = Summarize.RETRY_DELAY_MS * 2 ^ a
              :: (mapChunkGo primary chunk ci n (a + 1)).2 := by
        rw [Summarize.mapChunkGo, hp]
      revert h
      rw [hd]
      intro h
      cases k with
      | zero => simp
      | succ k =>
        rw [List.get_cons_succ]
        rw [show a + (k + 1) = (a + 1) + k by omega]
        exact ih (a + 1) k _

/-- Every sleep performed by `extractChunk`, at any retry depth, lasts the
constant `RETRY_DELAY_MS`. -/
theorem extractChunkE_delay_mem (oracle : ChunkOracle) (ci : ℕ) :
    ∀ (rl a : ℕ) (r : ChunkExtraction × List ℚ),
      extractChunkE oracle ci rl a = .ok r →
      ∀ d ∈ r.2, d = Pipeline.RETRY_DELAY_MS := by
  intro rl
  induction rl with
  | zero =>
    intro a r hr d hd
    cases hp : oracle.primary a with
    | ok x =>
      simp [Pipeline.extractChunkE, hp] at hr
      rw [← hr] at hd
      simp at hd
    | error e =>
      cases hf : oracle.fallback with
      | ok fb =>
        simp [Pipeline.extractChunkE, hp, hf] at hr
        rw [← hr] at hd
        simp at hd
      | error e2 =>
        simp [Pipeline.extractChunkE, hp, hf] at hr
        rw [← hr] at hd
        simp at hd
  | succ n ih =>
    intro a r hr d hd
    cases hp : oracle.primary a with
    | ok x =>
      simp [Pipeline.extractChunkE, hp] at hr
      rw [← hr] at hd
      simp at hd
    | error e =>
      obtain ⟨r', hr'⟩ := extractChunkE_ok oracle ci n (a + 1)
      simp [Pipeline.extractChunkE, hp, hr'] at hr
      rw [← hr] at hd
      rcases List.mem_cons.mp hd with rfl | hd2
      · rfl
      · exact ih (a + 1) r' hr' d hd2

/-- C4. The two chunk pipelines differ on retry delays: the comment
summarizer `mapChunkToSummary` sleeps `base_delay_ms * 2 ^ k` before its
`k`-th retry (exponential backoff), while the extraction pipeline's
`extractChunk` sleeps the constant `RETRY_DELAY_MS` (1000 ms) before every
retry — its `k`-th retry delay is not `base_delay_ms * 2 ^ k` for `k ≥ 1`. -/
theorem C4_retry_delays :
    (∀ (primary : ℕ → Except String Summarize.Summary) (chunk : List String)
        (ci k : ℕ) (h : k < (mapChunkToSummary primary chunk ci).2.length),
      (mapChunkToSummary primary chunk ci).2.get ⟨k, h⟩
        = Summarize.RETRY_DELAY_MS * 2 ^ k) ∧
    (∀ (oracle : ChunkOracle) (ci : ℕ) (d : ℚ),
      d ∈ extractChunkDelays oracle ci → d = Pipeline.RETRY_DELAY_MS) := by
  constructor
  · intro primary chunk ci k h
    have hg := mapChunkGo_delay_get primary chunk ci Summarize.MAX_RETRIES 0 k h
    rw [Nat.zero_add] at hg
    exact hg
  · intro oracle ci d hd
    obtain ⟨r, hr⟩ := extractChunkE_ok oracle ci Pipeline.MAX_RETRIES 0
    simp only [Pipeline.extractChunkDelays, hr] at hd
    exact extractChunkE_delay_mem oracle ci Pipeline.MAX_RETRIES 0 r hr d hd

/-- C4, witness: a summarizer chunk failing every attempt has second retry
delay `1000 * 2 ^ 1`; a 1000 ms delay of the failing extraction chunk is
the constant `RETRY_DELAY_MS`. -/
theorem C4_retry_delays_witness :
    (∃ h : 1 < (mapChunkToSummary (fun _ => .error "x") [] 0).2.length,
      (mapChunkToSummary (fun _ => .error "x") [] 0).2.get ⟨1, h⟩
        = Summarize.RETRY_DELAY_MS * 2 ^ 1) ∧
    (1000 : ℚ) = Pipeline.RETRY_DELAY_MS := by
  constructor
  · have hlen : 1 < (mapChunkToSummary (fun _ => .error "x") ([] : List String) 0).2.length := by
      rw [show (mapChunkToSummary (fun _ => .error "x") ([] : List String) 0).2
          = [1000 * 2 ^ 0, 1000 * 2 ^ 1, 1000 * 2 ^ 2] from rfl]
      simp
    exact ⟨hlen, C4_retry_delays.1 (fun _ => .error "x") [] 0 1 hlen⟩
  · have hm : (1000 : ℚ) ∈ extractChunkDelays ⟨fun _ => .error "b", .error "b"⟩ 0 := by
      rw [show extractChunkDelays ⟨fun _ => .error "b", .error "b"⟩ 0
          = [1000, 1000, 1000] from rfl]
      simp
    exact C4_retry_delays.2 ⟨fun _ => .error "b", .error "b"⟩ 0 1000 hm

/-- A single `moderateMessage` call never introduces a critical-severity
entry into the result cache. -/
theorem moderate_preserves_noCritical (cache : List (String × ModerationResult))
    (key : String) (outcome : ModelOutcome)
    (hc : ∀ p ∈ cache, p.2.severity ≠ Severity.critical) :
    ∀ p ∈ (moderateMessage cache key outcome).2.2,
      p.2.severity ≠ Severity.critical := by
  intro p hp
  rcases hl : cache.lookup key with _ | cached
  · rcases outcome with r | e
    · simp only [Moderation.moderateMessage, hl] at hp
      split at hp
      · rename_i hne
        have hp2 : (p ∈ cache ∧ ¬ p.1 = key) ∨ p = (key, r) := by
          simpa [Moderation.cacheSet] using hp
        rcases hp2 with ⟨hin, -⟩ | rfl
        · exact hc p hin
        · exact hne
      · exact hc p hp
    · simp only [Moderation.moderateMessage, hl] at hp
      exact hc p hp
  · simp only [Moderation.moderateMessage, hl] at hp
    exact hc p hp

/-- C8. On a cache miss with a successful model call, `moderateMessage`
writes the new result back exactly when its severity is not `critical`;
and across any sequence of `moderateMessage` calls a cache that held no
critical-severity result still holds none — a critical result is never
cached. (The error path returns the safe default without writing, see the
counterexample.) -/
theorem C8_critical_never_cached :
    (∀ (cache : List (String × ModerationResult)) (key : String)
        (r : ModerationResult), cache.lookup key = none →
      (moderateMessage cache key (.success r)).2.2
        = if r.severity ≠ Severity.critical then cacheSet cache key r else cache) ∧
    (∀ (cache : List (String × ModerationResult))
        (calls : List (String × ModelOutcome)),
      (∀ p ∈ cache, p.2.severity ≠ Severity.critical) →
      ∀ p ∈ runModeration cache calls, p.2.severity ≠ Severity.critical) := by
  constructor
  · intro cache key r hl
    simp [Moderation.moderateMessage, hl]
  · intro cache calls
    induction calls generalizing cache with
    | nil =>
      intro hc
      simpa [Moderation.runModeration] using hc
    | cons c cs ih =>
      intro hc
      simp only [Moderation.runModeration, List.foldl_cons]
      exact ih _ (moderate_preserves_noCritical cache c.1 c.2 hc)

/-- C8, witness: caching a warning-severity result on an empty cache. -/
theorem C8_critical_never_cached_witness :
    (moderateMessage [] "k" (.success warnResult)).2.2
      = (if warnResult.severity ≠ Severity.critical
          then cacheSet [] "k" warnResult else []) ∧
    (∀ p ∈ runModeration [] [("k", .success warnResult)],
      p.2.severity ≠ Severity.critical) := by
  constructor
  · exact C8_critical_never_cached.1 [] "k" warnResult rfl
  · exact C8_critical_never_cached.2 [] [("k", .success warnResult)] (by simp)

/-- The chunker's advance comes back to `start = 3` on the 12-character
run with `chunkSize = 10`, `overlap = 9`. -/
theorem chunkIter_loopText_three : (chunkIter loopText 10 9 3).1 = 3 := rfl

/-- From `start = 3` the chunker loop on `loopText` never finishes, for
any amount of fuel. -/
theorem chunkTextFuel_loopText_stuck :
    ∀ (fuel : ℕ) (acc : List (List Char)),
      chunkTextFuel loopText 10 9 fuel 3 acc = none := by
  intro fuel
  induction fuel with
  | zero => intro acc; rfl
  | succ f ih =>
    intro acc
    rw [Chunker.chunkTextFuel, if_pos (show 3 < loopText.length by decide),
      chunkIter_loopText_three]
    exact ih _

/-- C6. `chunkText` does not terminate on every input with
`0 ≤ overlap < size`: on the 12-character input `loopText` with
`chunkSize = 10` and `overlap = 9` the loop never exits — no fuel bound
suffices (after three iterations `start` is stuck at `3 = chunkEnd -
overlap`, and the `start ≤ 0` guard never fires). On empty input the loop
exits immediately with the empty chunk list, as claimed. -/
theorem C6_chunkText_nonterminating :
    (∀ (fuel : ℕ) (acc : List (List Char)),
      chunkTextFuel loopText 10 9 fuel 0 acc = none) ∧
    (∀ (chunkSize overlap fuel : ℕ),
      chunkTextFuel [] chunkSize overlap (fuel + 1) 0 [] = some []) := by
  constructor
  · intro fuel acc
    match fuel with
    | 0 => rfl
    | 1 => rfl
    | 2 => rfl
    | (f + 3) => exact chunkTextFuel_loopText_stuck f _
  · intro chunkSize overlap fuel
    rfl

/-- Closed form of the score under priority `speed`, for a model present
in the capability table. -/
theorem speed_score_formula (caps : List (String × ModelCapabilities)) (m : String)
    (t : ModelTelemetry) (cfg : RouterConfig) (now : ℚ) (c : ModelCapabilities)
    (hc : caps.lookup m = some c) (hp : cfg.priority = .speed) :
    (calculateModelScore caps m t cfg now).1
      = max 0 ((tierAdjusted t cfg - latencyGate t cfg) * 0.3
          + ((1 / t.avgLatencyMs) * 10000) * 0.7
          - successPenalty t + recencyBoost t now) := by
  simp only [Router.calculateModelScore, hc, hp, Router.tierAdjusted, Router.latencyGate,
    Router.successPenalty, Router.recencyBoost]
  rcases hm : cfg.maxLatencyMs with _ | m'
  · simp only [hm]
    split_ifs <;> ring_nf
  · simp only [hm]
    split_ifs <;> ring_nf

/-- Under priority `speed`, of two candidates identical except for a
positive average latency, the slower one scores strictly less — provided
the faster one's floored score is positive. -/
theorem speed_score_lt (caps : List (String × ModelCapabilities)) (m1 m2 : String)
    (t : ModelTelemetry) (l1 l2 : ℚ) (cfg : RouterConfig) (now : ℚ)
    (hp : cfg.priority = .speed)
    (h1 : (caps.lookup m1).isSome) (h2 : (caps.lookup m2).isSome)
    (hl : 0 < l1) (hll : l1 < l2)
    (hpos : 0 < (calculateModelScore caps m1 { t with avgLatencyMs := l1 } cfg now).1) :
    (calculateModelScore caps m2 { t with avgLatencyMs := l2 } cfg now).1
      < (calculateModelScore caps m1 { t with avgLatencyMs := l1 } cfg now).1 := by
  obtain ⟨c1, hc1⟩ := Option.isSome_iff_exists.mp h1
  obtain ⟨c2, hc2⟩ := Option.isSome_iff_exists.mp h2
  rw [speed_score_formula caps m1 _ cfg now c1 hc1 hp] at hpos ⊢
  rw [speed_score_formula caps m2 _ cfg now c2 hc2 hp]
  have hA : tierAdjusted { t with avgLatencyMs := l2 } cfg
      = tierAdjusted { t with avgLatencyMs := l1 } cfg := rfl
  have hP : successPenalty { t with avgLatencyMs := l2 }
      = successPenalty { t with avgLatencyMs := l1 } := rfl
  have hB : recencyBoost { t with avgLatencyMs := l2 } now
      = recencyBoost { t with avgLatencyMs := l1 } now := rfl
  have havg1 : ({ t with avgLatencyMs := l1 } : ModelTelemetry).avgLatencyMs = l1 := rfl
  have havg2 : ({ t with avgLatencyMs := l2 } : ModelTelemetry).avgLatencyMs = l2 := rfl
  have hgate : latencyGate { t with avgLatencyMs := l1 } cfg
      ≤ latencyGate { t with avgLatencyMs := l2 } cfg := by
    simp only [Router.latencyGate, havg1, havg2]
    rcases hm : cfg.maxLatencyMs with _ | m'
    · simp only [hm]
      exact le_refl _
    · simp only [hm]
      split_ifs with hg1 hg2
      · exact le_refl _
      · exact absurd ⟨hg1.1, lt_trans hg1.2 hll⟩ hg2
      · norm_num
      · exact le_refl _
  have hinv : 1 / l2 < 1 / l1 := one_div_lt_one_div_of_lt hl hll
  rw [hA, hP, hB, havg1, havg2] at *
  set A := tierAdjusted { t with avgLatencyMs := l1 } cfg with hAdef
  set g1 := latencyGate { t with avgLatencyMs := l1 } cfg with hg1def
  set g2 := latencyGate { t with avgLatencyMs := l2 } cfg with hg2def
  set P := successPenalty { t with avgLatencyMs := l1 } with hPdef
  set B := recencyBoost { t with avgLatencyMs := l1 } now with hBdef
  have hraw : (A - g2) * 0.3 + ((1 / l2) * 10000) * 0.7 - P + B
      < (A - g1) * 0.3 + ((1 / l1) * 10000) * 0.7 - P + B := by
    nlinarith [hgate, hinv]
  have h1pos : 0 < (A - g1) * 0.3 + ((1 / l1) * 10000) * 0.7 - P + B := by
    rcases lt_max_iff.mp hpos with h | h
    · exact absurd h (lt_irrefl 0)
    · exact h
  rw [max_eq_right h1pos.le]
  exact max_lt_iff.mpr ⟨h1pos, hraw⟩

/-- C7. With priority `speed` and two candidate backends (both present in
the capability table) whose telemetry is identical except for a positive
`avgLatencyMs`, `selectModel` selects the strictly faster backend in
either enumeration order — provided the faster backend's floored score is
positive (when both scores floor to 0 the stable sort keeps map order
instead, see the counterexample). -/
theorem C7_lower_latency_wins (caps : List (String × ModelCapabilities))
    (m1 m2 : String) (t : ModelTelemetry) (l1 l2 : ℚ) (cfg : RouterConfig)
    (now : ℚ) (hist : List RoutingDecision)
    (hp : cfg.priority = .speed)
    (h1 : (caps.lookup m1).isSome) (h2 : (caps.lookup m2).isSome)
    (hl : 0 < l1) (hll : l1 < l2)
    (hpos : 0 < (calculateModelScore caps m1 { t with avgLatencyMs := l1 } cfg now).1) :
    (selectModel caps [(m1, { t with avgLatencyMs := l1 }),
        (m2, { t with avgLatencyMs := l2 })] cfg now hist).1 = m1 ∧
    (selectModel caps [(m2, { t with avgLatencyMs := l2 }),
        (m1, { t with avgLatencyMs := l1 })] cfg now hist).1 = m1 := by
  have hlt := speed_score_lt caps m1 m2 t l1 l2 cfg now hp h1 h2 hl hll hpos
  constructor
  · simp only [Router.selectModel, List.map_cons, List.map_nil, Router.sortByScoreDesc,
      List.foldr_cons, List.foldr_nil, Router.insertByScoreDesc]
    rw [if_neg (not_lt.mpr hlt.le)]
  · simp only [Router.selectModel, List.map_cons, List.map_nil, Router.sortByScoreDesc,
      List.foldr_cons, List.foldr_nil, Router.insertByScoreDesc]
    rw [if_pos hlt]

/-- C7, witness: `openai/gpt-4.1` at 1000 ms average beats
`openai/gpt-5-mini` at 2000 ms under a speed-priority classification
request, in both enumeration orders. -/
theorem C7_lower_latency_wins_witness :
    (selectModel MODEL_CAPABILITIES
        [("openai/gpt-4.1", { mEntry with avgLatencyMs := 1000 }),
         ("openai/gpt-5-mini", { mEntry with avgLatencyMs := 2000 })]
        cfgS 0 []).1 = "openai/gpt-4.1" ∧
    (selectModel MODEL_CAPABILITIES
        [("openai/gpt-5-mini", { mEntry with avgLatencyMs := 2000 }),
         ("openai/gpt-4.1", { mEntry with avgLatencyMs := 1000 })]
        cfgS 0 []).1 = "openai/gpt-4.1" := by
  have hpos : 0 < (calculateModelScore MODEL_CAPABILITIES "openai/gpt-4.1"
      { mEntry with avgLatencyMs := 1000 } cfgS 0).1 := by
    have hl : MODEL_CAPABILITIES.lookup "openai/gpt-4.1"
        = some ⟨.standard, 0.03, 3000, true, true⟩ := rfl
    simp only [Router.calculateModelScore, hl]
    norm_num [Router.mEntry, Router.cfgS, Router.tierIndex, Router.requiredTierFor]
  exact C7_lower_latency_wins MODEL_CAPABILITIES "openai/gpt-4.1" "openai/gpt-5-mini"
    mEntry 1000 2000 cfgS 0 [] rfl rfl rfl (by norm_num) (by norm_num) hpos
